import Mathlib

/-!
Verification of `anki.py` (cdpath/mcp-anki-xiaozhi) via a shallow embedding.

The embedding translates the card-presentation pipeline of `src/anki.py`:
  * `_strip_html` (HTML → plain text, via BeautifulSoup's `html.parser`),
  * `_format_question` (localization transform keyed by model/template),
  * `AnkiClient._request` (response-envelope validation),
  * `_get_current_card_info`, `start_learning`, `answer_and_get_next_card`
    (the session orchestrator).
Remote effects are modelled by an environment that maps each action
(`guiCurrentCard`, `guiShowAnswer`, `guiAnswerCard`, ...) to a transport
outcome, and every function returns its result together with the ordered
list of requests it issued.  `time.sleep(1)` has no observable effect in
the embedding.  Logging calls are omitted (excluded from the spec's scope).
-/

set_option autoImplicit false

namespace Anki

/-! ### Python string helpers

`isPySpace` models the whitespace set of Python's `str.strip()`
(Unicode whitespace). -/

def isPySpace (c : Char) : Bool :=
  c == ' ' || c == '\t' || c == '\n' || c == '\r' || c == '\x0b' || c == '\x0c'
  || c.val == 0x1c || c.val == 0x1d || c.val == 0x1e || c.val == 0x1f
  || c.val == 0x85 || c.val == 0xa0 || c.val == 0x1680
  || (0x2000 ≤ c.val && c.val ≤ 0x200a)
  || c.val == 0x2028 || c.val == 0x2029 || c.val == 0x202f
  || c.val == 0x205f || c.val == 0x3000

/-- `str.lstrip()` on a character list. -/
def lstrip (l : List Char) : List Char := l.dropWhile isPySpace

/-- `str.rstrip()` on a character list. -/
def rstrip (l : List Char) : List Char := (l.reverse.dropWhile isPySpace).reverse

/-- `str.strip()` on a character list. -/
def pyStrip (l : List Char) : List Char := rstrip (lstrip l)

/-- `text.split("\n")` on a character list, with Python semantics:
splitting the empty string yields `[""]`, and separators at the ends
produce empty segments. -/
def splitNL : List Char → List (List Char)
  | [] => [[]]
  | c :: cs =>
    if c = '\n' then [] :: splitNL cs
    else
      match splitNL cs with
      | [] => [[c]]
      | h :: t => (c :: h) :: t

/-- `"\n".join(lines)` on character lists. -/
def joinNL : List (List Char) → List Char
  | [] => []
  | [s] => s
  | s :: rest => s ++ '\n' :: joinNL rest

/-- The post-processing of `_strip_html`:
`lines = [line.strip() for line in text.split("\n")]` followed by
`"\n".join(line for line in lines if line)`. -/
def postLines (l : List Char) : List Char :=
  joinNL (((splitNL l).map pyStrip).filter (fun s => !s.isEmpty))

/-! ### HTML tree model

`_strip_html` parses its input with `BeautifulSoup(html_content, "html.parser")`.
We model the parsed document as a forest of `HNode`s.  An element keeps its
tag name, the class names from its `class` attribute, and its children.
The model covers the HTML fragment relevant to card content: plain text,
the named character references `amp/lt/gt/quot/nbsp` (others are kept as a
literal ampersand), elements with attributes, void elements, comments and
closing tags.  Approximations, stated once: a closing tag always closes the
innermost open element, comments end at the first unquoted character that
closes the tag, and numeric character references are not decoded. -/

inductive HNode where
  | text (s : List Char)
  | elem (tag : List Char) (classes : List (List Char)) (children : List HNode)
  deriving Repr

/-- A character that the tokenizer treats as plain text
(anything but a tag opener or an entity start). -/
def isTextChar (c : Char) : Bool := !(c == '<') && !(c == '&')

def isNameChar (c : Char) : Bool := c.isAlpha || c.isDigit

def isAttrNameChar (c : Char) : Bool :=
  !(c == ' ') && !(c == '\t') && !(c == '\n') && !(c == '\r')
  && !(c == '=') && !(c == '>') && !(c == '/')

def isHtmlWS (c : Char) : Bool :=
  c == ' ' || c == '\t' || c == '\n' || c == '\r' || c == '\x0c'

/-- The single-quote character (written by code point to keep the source
free of quote-escape noise). -/
def sq : Char := Char.ofNat 39

/-- Decode a named character reference; the input starts right after `&`.
Unknown references are kept as a literal `&`. -/
def parseEntity (r : List Char) : List Char × List Char :=
  if r.take 4 = "amp;".data then (['&'], r.drop 4)
  else if r.take 3 = "lt;".data then (['<'], r.drop 3)
  else if r.take 3 = "gt;".data then (['>'], r.drop 3)
  else if r.take 5 = "quot;".data then (['"'], r.drop 5)
  else if r.take 5 = "nbsp;".data then ([Char.ofNat 160], r.drop 5)
  else (['&'], r)

/-- HTML void elements: they never take children. -/
def isVoidTag (t : List Char) : Bool :=
  ["area", "base", "br", "col", "embed", "hr", "img", "input", "link",
    "meta", "param", "source", "track", "wbr"].contains (String.mk t)

/-- Parse the attribute list of a start tag, up to and including `>`.
Returns the attributes, whether the tag was self-closing, and the rest of
the input. -/
def parseAttrs : Nat → List Char → List (List Char × List Char) × Bool × List Char
  | 0, s => ([], false, s)
  | fuel + 1, s =>
    let s1 := s.dropWhile isHtmlWS
    match s1 with
    | [] => ([], false, [])
    | '>' :: r => ([], false, r)
    | '/' :: r =>
      match r with
      | '>' :: r2 => ([], true, r2)
      | _ => parseAttrs fuel r
    | _ =>
      let name := s1.takeWhile isAttrNameChar
      if name.isEmpty then
        match s1 with
        | [] => ([], false, [])
        | _ :: r => parseAttrs fuel r
      else
        let s2 := s1.drop name.length
        match s2 with
        | '=' :: r =>
          match r with
          | '"' :: r2 =>
            let v := r2.takeWhile (fun c => !(c == '"'))
            let r3 := (r2.drop v.length).drop 1
            let (as, sc, rest) := parseAttrs fuel r3
            ((name, v) :: as, sc, rest)
          | c :: r2 =>
            if c = sq then
              let v := r2.takeWhile (fun c2 => !(c2 == sq))
              let r3 := (r2.drop v.length).drop 1
              let (as, sc, rest) := parseAttrs fuel r3
              ((name, v) :: as, sc, rest)
            else
              let v := (c :: r2).takeWhile
                (fun c2 => !(isHtmlWS c2) && !(c2 == '>'))
              let r3 := (c :: r2).drop v.length
              let (as, sc, rest) := parseAttrs fuel r3
              ((name, v) :: as, sc, rest)
          | [] => ([(name, [])], false, [])
        | _ =>
          let (as, sc, rest) := parseAttrs fuel s2
          ((name, []) :: as, sc, rest)

/-- Split an attribute value on runs of whitespace (how `html.parser`
produces the multi-valued `class` attribute). -/
def splitClasses : Nat → List Char → List (List Char)
  | 0, _ => []
  | fuel + 1, l =>
    let l1 := l.dropWhile isHtmlWS
    if l1.isEmpty then []
    else
      let w := l1.takeWhile (fun c => !(isHtmlWS c))
      w :: splitClasses fuel (l1.drop w.length)

/-- The class list of a start tag, from its `class` attribute. -/
def classesOf (attrs : List (List Char × List Char)) : List (List Char) :=
  match attrs.lookup "class".data with
  | none => []
  | some v => splitClasses (v.length + 1) v

def consText (t : List Char) (ns : List HNode) : List HNode :=
  if t.isEmpty then ns else HNode.text t :: ns

/-- The tokenizer/tree-builder: returns the parsed sibling nodes together
with the input remaining after the closing tag of the enclosing element. -/
def parseNodes : Nat → List Char → List HNode × List Char
  | 0, s => ([], s)
  | fuel + 1, s =>
    let txt := s.takeWhile isTextChar
    let rest := s.dropWhile isTextChar
    match rest with
    | [] => (consText txt [], [])
    | '&' :: r =>
      let (ent, r2) := parseEntity r
      let (ns, rem) := parseNodes fuel r2
      (consText txt (consText ent ns), rem)
    | '<' :: r =>
      match r with
      | '/' :: r2 =>
        let after := (r2.dropWhile (fun c => !(c == '>'))).drop 1
        (consText txt [], after)
      | '!' :: r2 =>
        let after := (r2.dropWhile (fun c => !(c == '>'))).drop 1
        let (ns, rem) := parseNodes fuel after
        (consText txt ns, rem)
      | _ =>
        let name := r.takeWhile isNameChar
        if name.isEmpty then
          let (ns, rem) := parseNodes fuel r
          (consText txt (consText ['<'] ns), rem)
        else
          let afterName := r.drop name.length
          let (attrs, selfClose, afterTag) := parseAttrs afterName.length afterName
          let classes := classesOf attrs
          if isVoidTag name || selfClose then
            let (ns, rem) := parseNodes fuel afterTag
            (consText txt (HNode.elem name classes [] :: ns), rem)
          else
            let (children, afterChildren) := parseNodes fuel afterTag
            let (ns, rem) := parseNodes fuel afterChildren
            (consText txt (HNode.elem name classes children :: ns), rem)
    | c :: r =>
      let (ns, rem) := parseNodes fuel r
      (consText txt (consText [c] ns), rem)

/-- `BeautifulSoup(html, "html.parser")` as a forest. -/
def parseHtml (s : List Char) : List HNode :=
  (parseNodes (s.length + 1) s).1

/-! ### The structural transforms of `_strip_html`

The tree walks are written with an explicit fuel argument (structural in
`Nat`, so they evaluate by kernel reduction).  `stripCore` passes
`4 * length + 4`: a parse of `n` characters yields at most `n` nodes and
`insert_after` at most doubles that, so the fuel strictly dominates every
recursion path and the fuel-exhausted branches are never taken. -/

/-- `for e in soup.find_all(tag, class_=cls): e.decompose()` — remove, as
whole subtrees, every element with the given tag whose class list contains
`cls`. -/
def removeForestF (tag cls : List Char) : Nat → List HNode → List HNode
  | 0, ns => ns
  | _ + 1, [] => []
  | fuel + 1, HNode.text s :: rest => HNode.text s :: removeForestF tag cls fuel rest
  | fuel + 1, HNode.elem t cs ch :: rest =>
    if t = tag ∧ cls ∈ cs then removeForestF tag cls fuel rest
    else HNode.elem t cs (removeForestF tag cls fuel ch)
      :: removeForestF tag cls fuel rest

/-- `for br in soup.find_all("br"): br.replace_with("\n")`. -/
def replaceBrForestF : Nat → List HNode → List HNode
  | 0, ns => ns
  | _ + 1, [] => []
  | fuel + 1, HNode.text s :: rest => HNode.text s :: replaceBrForestF fuel rest
  | fuel + 1, HNode.elem t cs ch :: rest =>
    if t = "br".data then HNode.text ['\n'] :: replaceBrForestF fuel rest
    else HNode.elem t cs (replaceBrForestF fuel ch) :: replaceBrForestF fuel rest

/-- `for p in soup.find_all("p"): p.insert_after("\n")`. -/
def insertAfterPForestF : Nat → List HNode → List HNode
  | 0, ns => ns
  | _ + 1, [] => []
  | fuel + 1, HNode.text s :: rest => HNode.text s :: insertAfterPForestF fuel rest
  | fuel + 1, HNode.elem t cs ch :: rest =>
    if t = "p".data then
      HNode.elem t cs (insertAfterPForestF fuel ch) :: HNode.text ['\n']
        :: insertAfterPForestF fuel rest
    else HNode.elem t cs (insertAfterPForestF fuel ch)
      :: insertAfterPForestF fuel rest

/-- `soup.get_text()` — concatenate all text descendants in order. -/
def getTextForestF : Nat → List HNode → List Char
  | 0, _ => []
  | _ + 1, [] => []
  | fuel + 1, HNode.text s :: rest => s ++ getTextForestF fuel rest
  | fuel + 1, HNode.elem _ _ ch :: rest =>
    getTextForestF fuel ch ++ getTextForestF fuel rest


/-- The body of `_strip_html` after the empty-input guard. -/
def stripCore (l : List Char) : List Char :=
  postLines (getTextForestF (4 * l.length + 4)
    (insertAfterPForestF (4 * l.length + 4)
      (replaceBrForestF (4 * l.length + 4)
        (removeForestF "dl".data "footnote".data (4 * l.length + 4)
          (removeForestF "div".data "audio".data (4 * l.length + 4)
            (parseHtml l))))))

/-- `_strip_html` from `src/anki.py`: extract text while preserving some
structure and removing specific elements. -/
def _strip_html (html_content : String) : String :=
  if html_content.data.isEmpty then ""
  else String.mk (stripCore html_content.data)

/-! ### Question formatter -/

def VOCAB_MODELS : List String := ["Vocabulary", "Phrase"]

/-- `_format_question` from `src/anki.py`: format question based on card
type and template. -/
def _format_question (model_name : String) (template : String)
    (question_text : String) : String :=
  if VOCAB_MODELS.contains model_name then
    if template = "card2" then question_text ++ " 的英文是什么？"
    else if template = "card1" then question_text ++ " 是什么意思？"
    else question_text
  else question_text

/-! ### JSON values and the Anki-Connect client

`JsonV` models the values produced by `json.load`; an object is its ordered
field list.  Python dict semantics (duplicate keys in the source text: last
wins) are reflected by `pyLookup` looking up the last binding. -/

inductive JsonV where
  | null
  | bool (b : Bool)
  | str (s : String)
  | num (n : Int)
  | obj (fields : List (String × JsonV))
  | arr (elems : List JsonV)

/-- Python exceptions that the embedded code can raise.  All raise sites of
the single class `AnkiConnectError` are collected under `ankiConnect`; the
`AnkiErrKind` below records which raise site produced it (in the source the
sites differ only by message). -/
inductive AnkiErrKind where
  | serviceUnavailable
  | protocolError (payload : List (String × JsonV))
  | applicationError (errStr : String)

inductive PyErr where
  | ankiConnect (k : AnkiErrKind)
  | valueError (msg : String)
  | keyError (key : String)
  | typeError (msg : String)
  | attributeError (msg : String)

/-- Dict lookup with Python `json` semantics: the last binding wins. -/
def pyLookup (fields : List (String × JsonV)) (k : String) : Option JsonV :=
  fields.reverse.lookup k

/-- `set(response.keys()) == {"result", "error"}`. -/
def keysOk (resp : List (String × JsonV)) : Bool :=
  let ks := resp.map Prod.fst
  ks.all (fun k => k == "result" || k == "error")
    && ks.contains "result" && ks.contains "error"

def quoteStr (s : String) : String :=
  String.mk (sq :: s.data ++ [sq])

mutual

/-- Python `repr` of a JSON value (`str` of containers uses `repr` of
their items; strings inside containers are single-quoted). -/
def pyRepr : JsonV → String
  | JsonV.null => "None"
  | JsonV.bool true => "True"
  | JsonV.bool false => "False"
  | JsonV.num n => toString n
  | JsonV.str s => quoteStr s
  | JsonV.obj fs => "\x7b" ++ pyReprFields fs ++ "\x7d"
  | JsonV.arr xs => "[" ++ pyReprItems xs ++ "]"

def pyReprFields : List (String × JsonV) → String
  | [] => ""
  | [(k, v)] => quoteStr k ++ ": " ++ pyRepr v
  | (k, v) :: rest => quoteStr k ++ ": " ++ pyRepr v ++ ", " ++ pyReprFields rest

def pyReprItems : List JsonV → String
  | [] => ""
  | [v] => pyRepr v
  | v :: rest => pyRepr v ++ ", " ++ pyReprItems rest

end

/-- Python `str()` of a JSON value. -/
def pyStr : JsonV → String
  | JsonV.null => "None"
  | JsonV.bool true => "True"
  | JsonV.bool false => "False"
  | JsonV.num n => toString n
  | JsonV.str s => s
  | JsonV.obj fs => "\x7b" ++ pyReprFields fs ++ "\x7d"
  | JsonV.arr xs => "[" ++ pyReprItems xs ++ "]"

/-- The envelope validation of `AnkiClient._request`, applied to the parsed
JSON response:
`if set(response.keys()) != {"result","error"}: raise AnkiConnectError(...)`;
`if response["error"] is not None: raise AnkiConnectError(str(...))`;
`return response["result"]`.  The `keyError` branches are unreachable when
`keysOk` holds. -/
def envelope (resp : List (String × JsonV)) : Except PyErr JsonV :=
  if keysOk resp then
    match pyLookup resp "error" with
    | none => Except.error (PyErr.keyError "error")
    | some JsonV.null =>
      match pyLookup resp "result" with
      | none => Except.error (PyErr.keyError "result")
      | some rv => Except.ok rv
    | some ev =>
      Except.error (PyErr.ankiConnect (AnkiErrKind.applicationError (pyStr ev)))
  else Except.error (PyErr.ankiConnect (AnkiErrKind.protocolError resp))

/-- Outcome of the HTTP transport for one request: `urllib` raised a
`URLError`, or a parsed JSON response mapping came back. -/
inductive TransportResult where
  | urlError
  | parsed (resp : List (String × JsonV))

/-- The external world: what the transport returns for each
`(action, params)` request.  The request body also carries `version: 6`,
which is constant and therefore omitted from the model. -/
structure Env where
  respond : String → JsonV → TransportResult

/-- A remote call issued by the client (for the request trace). -/
structure Request where
  action : String
  params : JsonV

/-- `AnkiClient._request`: issue the request; on `URLError` raise
`AnkiConnectError("Anki-Connect is not reachable – is Anki running?")`
(the `serviceUnavailable` raise site), otherwise validate the envelope. -/
def _request (env : Env) (action : String) (params : JsonV) :
    Except PyErr JsonV :=
  match env.respond action params with
  | TransportResult.urlError =>
    Except.error (PyErr.ankiConnect AnkiErrKind.serviceUnavailable)
  | TransportResult.parsed resp => envelope resp

/-- `guiCurrentCard` wrapper (`params or {}` is the empty object). -/
def gui_current_card (env : Env) : Except PyErr JsonV :=
  _request env "guiCurrentCard" (JsonV.obj [])

def gui_show_answer (env : Env) : Except PyErr JsonV :=
  _request env "guiShowAnswer" (JsonV.obj [])

def gui_answer_card (env : Env) (ease : Int) : Except PyErr JsonV :=
  _request env "guiAnswerCard" (JsonV.obj [("ease", JsonV.num ease)])

def currentCardReq : Request := ⟨"guiCurrentCard", JsonV.obj []⟩

def showAnswerReq : Request := ⟨"guiShowAnswer", JsonV.obj []⟩

def answerCardReq (ease : Int) : Request :=
  ⟨"guiAnswerCard", JsonV.obj [("ease", JsonV.num ease)]⟩

/-! ### Session orchestrator -/

/-- `card[k]` where the card's consumed fields are strings (per the
external API and the `str` annotations of `_format_question`):
a missing key raises `KeyError`, a non-string value is outside the model
and mapped to `typeError`. -/
def pyIndexStr (fields : List (String × JsonV)) (k : String) :
    Except PyErr String :=
  match pyLookup fields k with
  | some (JsonV.str s) => Except.ok s
  | some _ => Except.error (PyErr.typeError k)
  | none => Except.error (PyErr.keyError k)

/-- `card.get(k, default)` for string-valued fields. -/
def pyGetStr (fields : List (String × JsonV)) (k : String) (dflt : String) :
    Except PyErr String :=
  match pyLookup fields k with
  | some (JsonV.str s) => Except.ok s
  | some _ => Except.error (PyErr.typeError k)
  | none => Except.ok dflt

/-- `_get_current_card_info` from `src/anki.py`: get the current card,
read `modelName`/`template` by subscript, reveal the answer, then build the
result record.  Returns the result (or the raised exception) together with
the ordered list of remote requests issued.  `card.get("cardId")` is read
only for logging and cannot fail on a mapping, so it does not appear. -/
def _get_current_card_info (env : Env) :
    Except PyErr (List (String × JsonV)) × List Request :=
  match gui_current_card env with
  | Except.error e => (Except.error e, [currentCardReq])
  | Except.ok card =>
    match card with
    | JsonV.obj fields =>
      match pyIndexStr fields "modelName" with
      | Except.error e => (Except.error e, [currentCardReq])
      | Except.ok model_name =>
        match pyIndexStr fields "template" with
        | Except.error e => (Except.error e, [currentCardReq])
        | Except.ok template =>
          match gui_show_answer env with
          | Except.error e => (Except.error e, [currentCardReq, showAnswerReq])
          | Except.ok _ =>
            match pyGetStr fields "question" "" with
            | Except.error e =>
              (Except.error e, [currentCardReq, showAnswerReq])
            | Except.ok questionHtml =>
              match pyGetStr fields "deckName" "" with
              | Except.error e =>
                (Except.error e, [currentCardReq, showAnswerReq])
              | Except.ok deckName =>
                match pyGetStr fields "answer" "" with
                | Except.error e =>
                  (Except.error e, [currentCardReq, showAnswerReq])
                | Except.ok answerHtml =>
                  (Except.ok
                    [("success", JsonV.bool true),
                      ("model_name", JsonV.str model_name),
                      ("template", JsonV.str template),
                      ("deck_name", JsonV.str deckName),
                      ("question", JsonV.str (_format_question model_name
                        template (_strip_html questionHtml))),
                      ("answer", JsonV.str (_strip_html answerHtml))],
                    [currentCardReq, showAnswerReq])
    | _ => (Except.error (PyErr.attributeError "get"), [currentCardReq])

/-- The `start_learning` tool: logs, then delegates to
`_get_current_card_info` with no exception handling of its own. -/
def start_learning (env : Env) :
    Except PyErr (List (String × JsonV)) × List Request :=
  _get_current_card_info env

/-- `ease not in {1, 2, 3, 4}` (negated). -/
def easeValid (ease : Int) : Bool :=
  ease == 1 || ease == 2 || ease == 3 || ease == 4

/-- The record returned when the re-fetch after answering raises
`AnkiConnectError` ("No more cards available"). -/
def deckFinishedView : List (String × JsonV) :=
  [("success", JsonV.bool true),
    ("deck_finished", JsonV.bool true),
    ("model_name", JsonV.str ""),
    ("deck_name", JsonV.str ""),
    ("question", JsonV.str ""),
    ("answer", JsonV.str "")]

/-- The `answer_and_get_next_card` tool: validate `ease`, submit the
answer, `time.sleep(1)` (no observable effect here), then try
`_get_current_card_info()`, turning any `AnkiConnectError` — and only
that exception class — into the deck-finished record. -/
def answer_and_get_next_card (env : Env) (ease : Int) :
    Except PyErr (List (String × JsonV)) × List Request :=
  if easeValid ease then
    match gui_answer_card env ease with
    | Except.error e => (Except.error e, [answerCardReq ease])
    | Except.ok _ =>
      match _get_current_card_info env with
      | (Except.ok view, tr) => (Except.ok view, answerCardReq ease :: tr)
      | (Except.error (PyErr.ankiConnect _), tr) =>
        (Except.ok deckFinishedView, answerCardReq ease :: tr)
      | (Except.error e, tr) => (Except.error e, answerCardReq ease :: tr)
  else (Except.error (PyErr.valueError "ease must be 1-4"), [])

/-! ### Concrete environments used by witnesses and counterexamples -/

/-- An environment in which answering succeeds but every other request
fails at the transport level (connection refused). -/
def envNoMoreCards : Env :=
  ⟨fun a _ => if a = "guiAnswerCard"
    then TransportResult.parsed [("result", JsonV.null), ("error", JsonV.null)]
    else TransportResult.urlError⟩

/-- An environment whose current card has every consumed field present. -/
def envGood : Env :=
  ⟨fun a _ =>
    if a = "guiCurrentCard" then
      TransportResult.parsed [("result", JsonV.obj
        [("cardId", JsonV.num 17),
          ("modelName", JsonV.str "Vocabulary"),
          ("template", JsonV.str "card2"),
          ("deckName", JsonV.str "D"),
          ("question", JsonV.str "<p>apple</p>"),
          ("answer", JsonV.str "<b>ans</b>")]), ("error", JsonV.null)]
    else TransportResult.parsed [("result", JsonV.null), ("error", JsonV.null)]⟩

/-- An environment whose current card lacks the `modelName` key. -/
def envMissingModel : Env :=
  ⟨fun a _ =>
    if a = "guiCurrentCard" then
      TransportResult.parsed [("result", JsonV.obj
        [("cardId", JsonV.num 1),
          ("template", JsonV.str "card1"),
          ("deckName", JsonV.str "D"),
          ("question", JsonV.str "q"),
          ("answer", JsonV.str "a")]), ("error", JsonV.null)]
    else TransportResult.parsed [("result", JsonV.null), ("error", JsonV.null)]⟩

/-- An environment whose current card has only `modelName` and `template`. -/
def envBareCard : Env :=
  ⟨fun a _ =>
    if a = "guiCurrentCard" then
      TransportResult.parsed [("result", JsonV.obj
        [("modelName", JsonV.str "Vocabulary"),
          ("template", JsonV.str "card1")]), ("error", JsonV.null)]
    else TransportResult.parsed [("result", JsonV.null), ("error", JsonV.null)]⟩

/-- An environment in which every request fails at the transport level. -/
def envAllDown : Env := ⟨fun _ _ => TransportResult.urlError⟩

/-! ### Helper lemmas -/

/-! ### Lemmas about the post-processing -/

theorem splitNL_ne_nil (l : List Char) : splitNL l ≠ [] := by
  cases l with
  | nil => simp [splitNL]
  | cons c cs =>
    simp only [splitNL]
    split
    · simp
    · split <;> simp

theorem not_mem_of_mem_splitNL {l : List Char} {s : List Char}
    (hs : s ∈ splitNL l) : '\n' ∉ s := by
  induction l generalizing s with
  | nil =>
    simp [splitNL] at hs
    simp [hs]
  | cons c cs ih =>
    simp only [splitNL] at hs
    split at hs
    · rcases List.mem_cons.mp hs with h | h
      · simp [h]
      · exact ih h
    · rename_i hc
      rcases hmatch : splitNL cs with _ | ⟨h0, t0⟩
      · exact absurd hmatch (splitNL_ne_nil cs)
      · rw [hmatch] at hs
        rcases List.mem_cons.mp hs with h | h
        · subst h
          intro hmem
          rcases List.mem_cons.mp hmem with h | h
          · exact hc h.symm
          · exact ih (hmatch ▸ List.mem_cons_self h0 t0) h
        · exact ih (hmatch ▸ List.mem_cons.mpr (Or.inr h))

theorem splitNL_of_no_nl {l : List Char} (h : '\n' ∉ l) : splitNL l = [l] := by
  induction l with
  | nil => simp [splitNL]
  | cons c cs ih =>
    simp only [List.mem_cons, not_or] at h
    have hc : ¬(c = '\n') := fun hh => h.1 hh.symm
    simp only [splitNL, if_neg hc, ih h.2]

theorem splitNL_append_nl {a b : List Char} (h : '\n' ∉ a) :
    splitNL (a ++ '\n' :: b) = a :: splitNL b := by
  induction a with
  | nil => simp [splitNL]
  | cons c cs ih =>
    simp only [List.mem_cons, not_or] at h
    have hc : ¬(c = '\n') := fun hh => h.1 hh.symm
    simp [splitNL, hc, ih h.2]

theorem splitNL_joinNL {ls : List (List Char)} (hne : ls ≠ [])
    (hnl : ∀ s ∈ ls, '\n' ∉ s) : splitNL (joinNL ls) = ls := by
  induction ls with
  | nil => exact absurd rfl hne
  | cons a rest ih =>
    cases rest with
    | nil =>
      simp only [joinNL]
      exact splitNL_of_no_nl (hnl a (List.mem_cons_self a []))
    | cons b t =>
      have ha : '\n' ∉ a := hnl a (List.mem_cons_self a (b :: t))
      show splitNL (a ++ '\n' :: joinNL (b :: t)) = a :: (b :: t)
      rw [splitNL_append_nl ha]
      congr 1
      exact ih (by simp) (fun s hs => hnl s (List.mem_cons.mpr (Or.inr hs)))

theorem dropWhile_of_dropWhile_eq_self {p : Char → Bool} :
    ∀ l : List Char, List.dropWhile p (List.dropWhile p l) = List.dropWhile p l
  | [] => by simp
  | c :: cs => by
    by_cases hp : p c
    · simp only [List.dropWhile_cons, if_pos hp]
      exact dropWhile_of_dropWhile_eq_self cs
    · simp only [List.dropWhile_cons, if_neg hp]

theorem lstrip_lstrip (l : List Char) : lstrip (lstrip l) = lstrip l :=
  dropWhile_of_dropWhile_eq_self l

theorem dropWhile_append_char (p : Char → Bool) :
    ∀ xs ys : List Char, List.dropWhile p (xs ++ ys) =
      if List.dropWhile p xs = [] then List.dropWhile p ys
      else List.dropWhile p xs ++ ys
  | [], ys => by simp
  | x :: xs, ys => by
    by_cases hp : p x
    · simp only [List.cons_append, List.dropWhile_cons, if_pos hp]
      exact dropWhile_append_char p xs ys
    · simp [List.dropWhile_cons, hp]

theorem rstrip_rstrip (l : List Char) : rstrip (rstrip l) = rstrip l := by
  unfold rstrip
  rw [List.reverse_reverse, dropWhile_of_dropWhile_eq_self]

theorem length_dropWhile_le_char (p : Char → Bool) :
    ∀ l : List Char, (List.dropWhile p l).length ≤ l.length
  | [] => Nat.le_refl _
  | c :: cs => by
    rw [List.dropWhile_cons]
    split
    · exact Nat.le_succ_of_le (length_dropWhile_le_char p cs)
    · exact Nat.le_refl _

/-- If a list is not changed by `lstrip`, neither is its `rstrip`. -/
theorem lstrip_rstrip_of_lstrip_eq_self {l : List Char}
    (h : lstrip l = l) : lstrip (rstrip l) = rstrip l := by
  cases l with
  | nil => rfl
  | cons a t =>
    have hpa : isPySpace a = false := by
      by_contra hcon
      have hpa' : isPySpace a = true := by
        revert hcon
        cases isPySpace a <;> simp
      have h2 := h
      unfold lstrip at h2
      rw [List.dropWhile_cons, if_pos hpa'] at h2
      have hlen := congrArg List.length h2
      have hle : (List.dropWhile isPySpace t).length ≤ t.length :=
        length_dropWhile_le_char isPySpace t
      simp at hlen
      omega
    show lstrip (rstrip (a :: t)) = rstrip (a :: t)
    unfold rstrip
    rw [List.reverse_cons, dropWhile_append_char]
    have ha1 : List.dropWhile isPySpace [a] = [a] := by
      simp [List.dropWhile_cons, hpa]
    split
    · rw [ha1]
      simp [lstrip, List.dropWhile_cons, hpa]
    · rw [List.reverse_append]
      simp only [List.reverse_cons, List.reverse_nil, List.nil_append,
        List.singleton_append]
      simp [lstrip, List.dropWhile_cons, hpa]

theorem pyStrip_pyStrip (l : List Char) : pyStrip (pyStrip l) = pyStrip l := by
  unfold pyStrip
  rw [lstrip_rstrip_of_lstrip_eq_self (lstrip_lstrip l), rstrip_rstrip]

theorem map_eq_self_of_forall {α : Type} (f : α → α) :
    ∀ l : List α, (∀ a ∈ l, f a = a) → l.map f = l
  | [], _ => rfl
  | x :: xs, h => by
    simp only [List.map_cons, h x (List.mem_cons_self x xs),
      map_eq_self_of_forall f xs (fun a ha => h a (List.mem_cons.mpr (Or.inr ha)))]

theorem mem_of_mem_lstrip {l : List Char} {c : Char} (h : c ∈ lstrip l) :
    c ∈ l := by
  induction l with
  | nil => simp [lstrip] at h
  | cons a t ih =>
    unfold lstrip at h ih
    rw [List.dropWhile_cons] at h
    split at h
    · exact List.mem_cons.mpr (Or.inr (ih h))
    · exact h

theorem mem_of_mem_rstrip {l : List Char} {c : Char} (h : c ∈ rstrip l) :
    c ∈ l := by
  unfold rstrip at h
  rw [List.mem_reverse] at h
  have := mem_of_mem_lstrip (l := l.reverse) h
  rwa [List.mem_reverse] at this

theorem mem_of_mem_pyStrip {l : List Char} {c : Char} (h : c ∈ pyStrip l) :
    c ∈ l :=
  mem_of_mem_lstrip (mem_of_mem_rstrip h)

theorem postLines_idem (l : List Char) : postLines (postLines l) = postLines l := by
  set ls := ((splitNL l).map pyStrip).filter (fun s => !s.isEmpty) with hls
  have hmem : ∀ s ∈ ls, (∃ s0, s0 ∈ splitNL l ∧ s = pyStrip s0) ∧ s ≠ [] := by
    intro s hs
    rw [hls] at hs
    have hs' := List.mem_of_mem_filter hs
    have hprop := List.of_mem_filter hs
    rcases List.mem_map.mp hs' with ⟨s0, hs0, hmap⟩
    refine ⟨⟨s0, hs0, hmap.symm⟩, ?_⟩
    intro hnil
    rw [hnil] at hprop
    simp at hprop
  cases hcase : ls with
  | nil =>
    show postLines (joinNL ls) = joinNL ls
    rw [hcase]
    rfl
  | cons a rest =>
    show postLines (joinNL ls) = joinNL ls
    have hnl : ∀ s ∈ ls, '\n' ∉ s := by
      intro s hs
      rcases (hmem s hs).1 with ⟨s0, hs0, hrfl⟩
      intro hc
      exact not_mem_of_mem_splitNL hs0 (mem_of_mem_pyStrip (hrfl ▸ hc))
    unfold postLines
    rw [splitNL_joinNL (by rw [hcase]; simp) hnl]
    have hmap : ls.map pyStrip = ls := by
      apply map_eq_self_of_forall
      intro s hs
      rcases (hmem s hs).1 with ⟨s0, _, hrfl⟩
      rw [hrfl, pyStrip_pyStrip]
    rw [hmap]
    have hfilter : ls.filter (fun s => !s.isEmpty) = ls := by
      apply List.filter_eq_self.mpr
      intro s hs
      have := (hmem s hs).2
      cases s with
      | nil => exact absurd rfl this
      | cons x xs => simp
    rw [hfilter]

/-! ### Behaviour of the pipeline on markup-free text -/

theorem parseHtml_of_textfree {s : List Char} (hne : s ≠ [])
    (h : ∀ c ∈ s, isTextChar c = true) : parseHtml s = [HNode.text s] := by
  unfold parseHtml
  show (parseNodes (s.length + 1) s).1 = [HNode.text s]
  simp only [parseNodes]
  rw [List.takeWhile_eq_self_iff.mpr h, List.dropWhile_eq_nil_iff.mpr h]
  simp [consText, hne]

theorem removeForestF_nil (tag cls : List Char) :
    ∀ f, removeForestF tag cls f [] = []
  | 0 => rfl
  | _ + 1 => rfl

theorem removeForestF_text (tag cls s : List Char) (f : Nat) :
    removeForestF tag cls (f + 1) [HNode.text s] = [HNode.text s] := by
  simp [removeForestF, removeForestF_nil]

theorem replaceBrForestF_nil : ∀ f, replaceBrForestF f [] = []
  | 0 => rfl
  | _ + 1 => rfl

theorem replaceBrForestF_text (s : List Char) (f : Nat) :
    replaceBrForestF (f + 1) [HNode.text s] = [HNode.text s] := by
  simp [replaceBrForestF, replaceBrForestF_nil]

theorem insertAfterPForestF_nil : ∀ f, insertAfterPForestF f [] = []
  | 0 => rfl
  | _ + 1 => rfl

theorem insertAfterPForestF_text (s : List Char) (f : Nat) :
    insertAfterPForestF (f + 1) [HNode.text s] = [HNode.text s] := by
  simp [insertAfterPForestF, insertAfterPForestF_nil]

theorem getTextForestF_nil : ∀ f, getTextForestF f [] = []
  | 0 => rfl
  | _ + 1 => rfl

theorem getTextForestF_text (s : List Char) (f : Nat) :
    getTextForestF (f + 1) [HNode.text s] = s := by
  simp [getTextForestF, getTextForestF_nil]

/-- On markup-free non-empty input the pipeline reduces to the line
post-processing alone. -/
theorem stripCore_of_textfree {s : List Char} (hne : s ≠ [])
    (h : ∀ c ∈ s, isTextChar c = true) : stripCore s = postLines s := by
  unfold stripCore
  rw [parseHtml_of_textfree hne h]
  have h4 : 4 * s.length + 4 = (4 * s.length + 3) + 1 := rfl
  rw [h4, removeForestF_text, removeForestF_text, replaceBrForestF_text,
    insertAfterPForestF_text, getTextForestF_text]

theorem string_mk_data (z : String) : String.mk z.data = z := rfl

/-- The output of `_strip_html` is always a fixed point candidate: its
character data is `postLines` of something. -/
theorem strip_html_data (y : String) :
    ∃ w, (_strip_html y).data = postLines w := by
  unfold _strip_html
  split
  · exact ⟨[], rfl⟩
  · exact ⟨_, rfl⟩

/-! ### Lookup helper lemmas -/

theorem lookup_isSome_of_mem_keys :
    ∀ (l : List (String × JsonV)) (k : String),
      k ∈ l.map Prod.fst → ∃ v, l.lookup k = some v
  | [], k, h => by simp at h
  | (a, b) :: t, k, h => by
    by_cases hk : k = a
    · exact ⟨b, by simp [List.lookup, hk]⟩
    · have hmem : k ∈ t.map Prod.fst := by
        simp only [List.map_cons, List.mem_cons] at h
        rcases h with h | h
        · exact absurd h hk
        · exact h
      rcases lookup_isSome_of_mem_keys t k hmem with ⟨v, hv⟩
      refine ⟨v, ?_⟩
      have hbeq : (k == a) = false := by
        cases hb : k == a with
        | false => rfl
        | true => exact absurd (by simpa using hb) hk
      simp [List.lookup, hbeq, hv]

theorem keysOk_lookups {resp : List (String × JsonV)} (h : keysOk resp = true) :
    (∃ ev, pyLookup resp "error" = some ev)
    ∧ ∃ rv, pyLookup resp "result" = some rv := by
  unfold keysOk at h
  simp only [Bool.and_eq_true] at h
  obtain ⟨⟨_, hres⟩, herr⟩ := h
  have hres2 : "result" ∈ resp.reverse.map Prod.fst := by
    rw [List.map_reverse, List.mem_reverse]
    simpa using hres
  have herr2 : "error" ∈ resp.reverse.map Prod.fst := by
    rw [List.map_reverse, List.mem_reverse]
    simpa using herr
  exact ⟨lookup_isSome_of_mem_keys _ _ herr2, lookup_isSome_of_mem_keys _ _ hres2⟩

/-- Every successful result of `_get_current_card_info` has this exact key
list (there is a single success exit in the function body). -/
theorem card_info_keys (env : Env) (view : List (String × JsonV))
    (tr : List Request) (h : _get_current_card_info env = (Except.ok view, tr)) :
    view.map Prod.fst
      = ["success", "model_name", "template", "deck_name", "question", "answer"] := by
  unfold _get_current_card_info at h
  repeat' split at h
  all_goals simp_all
  obtain ⟨h1, h2⟩ := h
  subst h1
  rfl

/-! ### Claim theorems -/

/-- C8: `normalize` applied to the HTML string `"<p>Hello</p><br><p>World</p>"`
returns exactly the two-line plain text `"Hello\nWorld"`: the paragraph
boundaries and the line-break element become newlines, per-line whitespace
is trimmed, and the resulting blank lines are dropped. -/
theorem C8_strip_html_example :
    _strip_html "<p>Hello</p><br><p>World</p>" = "Hello\nWorld" := by decide

/-- C9: `normalize` is idempotent on its own outputs — whenever the output
of `_strip_html` contains no HTML markup (no `<` and no `&`), normalizing
it again is a no-op — and `normalize` is deterministic, returning equal
outputs for equal inputs. -/
theorem C9_normalize_idempotent (y : String)
    (h : ∀ c ∈ (_strip_html y).data, isTextChar c = true) :
    _strip_html (_strip_html y) = _strip_html y
    ∧ ∀ a b : String, a = b → _strip_html a = _strip_html b := by
  refine ⟨?_, fun a b hab => by rw [hab]⟩
  rcases strip_html_data y with ⟨w, hw⟩
  by_cases hx : (_strip_html y).data = []
  · have hxs : _strip_html y = "" := by
      have := string_mk_data (_strip_html y)
      rw [hx] at this
      exact this.symm
    rw [hxs]
    rfl
  · set x := _strip_html y with hxdef
    have hemp : x.data.isEmpty = false := by
      cases hd : x.data with
      | nil => exact absurd hd hx
      | cons c cs => rfl
    show _strip_html x = x
    unfold _strip_html
    rw [if_neg (by rw [hemp]; exact Bool.false_ne_true)]
    rw [stripCore_of_textfree hx h, hw, postLines_idem, ← hw]

/-- C9 witness: a concrete markup-free output on which re-normalizing is a
no-op, and determinism at a concrete input. -/
theorem C9_witness :
    _strip_html (_strip_html "<p>Hello</p> <br> x ") = _strip_html "<p>Hello</p> <br> x "
    ∧ _strip_html "<p>a</p>" = _strip_html "<p>a</p>" :=
  ⟨(C9_normalize_idempotent "<p>Hello</p> <br> x " (by decide)).1,
    (C9_normalize_idempotent "<p>a</p>" (by decide)).2 "<p>a</p>" "<p>a</p>" rfl⟩

/-- C7: for vocabulary-like models (`"Vocabulary"` or `"Phrase"`, the
members of `VOCAB_MODELS`), template `"card2"` appends `" 的英文是什么？"`
and template `"card1"` appends `" 是什么意思？"`; every other
model/template combination returns the question unchanged. -/
theorem C7_format_question (m t q : String) :
    (VOCAB_MODELS.contains m = true ↔ (m = "Vocabulary" ∨ m = "Phrase"))
    ∧ ((m = "Vocabulary" ∨ m = "Phrase") →
      _format_question m "card2" q = q ++ " 的英文是什么？"
      ∧ _format_question m "card1" q = q ++ " 是什么意思？")
    ∧ (¬(m = "Vocabulary" ∨ m = "Phrase") → _format_question m t q = q)
    ∧ ((m = "Vocabulary" ∨ m = "Phrase") → t ≠ "card2" → t ≠ "card1" →
      _format_question m t q = q) := by
  have hmemIff : m ∈ VOCAB_MODELS ↔ (m = "Vocabulary" ∨ m = "Phrase") := by
    simp [VOCAB_MODELS]
  have hmem : VOCAB_MODELS.contains m = true ↔ (m = "Vocabulary" ∨ m = "Phrase") := by
    rw [← hmemIff]
    simp
  refine ⟨hmem, ?_, ?_, ?_⟩
  · intro hv
    have hc : m ∈ VOCAB_MODELS := hmemIff.mpr hv
    constructor
    · simp [_format_question, hc]
    · simp [_format_question, hc]
  · intro hv
    have hc : m ∉ VOCAB_MODELS := fun hm => hv (hmemIff.mp hm)
    simp [_format_question, hc]
  · intro hv h2 h1
    have hc : m ∈ VOCAB_MODELS := hmemIff.mpr hv
    simp [_format_question, hc, h2, h1]

/-- C7 witness: the four spec examples. -/
theorem C7_witness :
    _format_question "Vocabulary" "card2" "apple" = "apple 的英文是什么？"
    ∧ _format_question "Vocabulary" "card1" "apple" = "apple 是什么意思？"
    ∧ _format_question "Basic" "card1" "apple" = "apple"
    ∧ _format_question "Vocabulary" "card3" "apple" = "apple" :=
  ⟨((C7_format_question "Vocabulary" "card3" "apple").2.1 (Or.inl rfl)).1,
    ((C7_format_question "Vocabulary" "card3" "apple").2.1 (Or.inl rfl)).2,
    (C7_format_question "Basic" "card1" "apple").2.2.1 (by decide),
    (C7_format_question "Vocabulary" "card3" "apple").2.2.2 (Or.inl rfl)
      (by decide) (by decide)⟩

/-- C10: the question formatter only ever appends a suffix — for every
model name, template and question text, its output is the question text
followed by some (possibly empty) suffix. -/
theorem C10_format_question_appends (m t q : String) :
    ∃ suffix : String, _format_question m t q = q ++ suffix := by
  unfold _format_question
  split
  · split
    · exact ⟨" 的英文是什么？", rfl⟩
    · split
      · exact ⟨" 是什么意思？", rfl⟩
      · exact ⟨"", by simp⟩
  · exact ⟨"", by simp⟩

/-- C4: the envelope check of the Remote Client's invoke operation raises
a failure if and only if the parsed mapping's key set is not exactly
`{result, error}` (an `AnkiConnectError` at the protocol-error raise site,
carrying the raw payload) or its error value is non-null (an
`AnkiConnectError` at the application-error raise site, carrying the
error's string representation); otherwise it returns the value under the
`result` key. -/
theorem C4_request_envelope (resp : List (String × JsonV)) :
    (keysOk resp = false →
      envelope resp
        = Except.error (PyErr.ankiConnect (AnkiErrKind.protocolError resp)))
    ∧ (keysOk resp = true →
        ((∃ ev, pyLookup resp "error" = some ev)
          ∧ ∃ rv, pyLookup resp "result" = some rv)
        ∧ (∀ ev, pyLookup resp "error" = some ev → ev ≠ JsonV.null →
            envelope resp = Except.error (PyErr.ankiConnect
              (AnkiErrKind.applicationError (pyStr ev))))
        ∧ (∀ rv, pyLookup resp "error" = some JsonV.null →
            pyLookup resp "result" = some rv →
            envelope resp = Except.ok rv)) := by
  constructor
  · intro hk
    simp [envelope, hk]
  · intro hk
    refine ⟨keysOk_lookups hk, ?_, ?_⟩
    · intro ev hev hne
      cases ev with
      | null => exact absurd rfl hne
      | bool b => simp [envelope, hk, hev]
      | str s => simp [envelope, hk, hev]
      | num n => simp [envelope, hk, hev]
      | obj fs => simp [envelope, hk, hev]
      | arr xs => simp [envelope, hk, hev]
    · intro rv hev hrv
      simp [envelope, hk, hev, hrv]

/-- C4 witness: a well-formed success envelope returns the result value;
a well-formed envelope with a non-null error raises the application-error
failure carrying the error string. -/
theorem C4_witness :
    envelope [("result", JsonV.str "ok"), ("error", JsonV.null)]
      = Except.ok (JsonV.str "ok")
    ∧ envelope [("result", JsonV.null), ("error", JsonV.str "no card")]
      = Except.error (PyErr.ankiConnect (AnkiErrKind.applicationError "no card")) :=
  ⟨((C4_request_envelope
      [("result", JsonV.str "ok"), ("error", JsonV.null)]).2 rfl).2.2
      (JsonV.str "ok") rfl rfl,
    ((C4_request_envelope
      [("result", JsonV.null), ("error", JsonV.str "no card")]).2 rfl).2.1
      (JsonV.str "no card") rfl (fun hcon => by cases hcon)⟩

/-- C5: `start_session` fetches the current card, then reveals its answer,
then normalizes and formats (the trace records the fetch before the
reveal, and the question field is the formatter applied to the normalized
HTML), returning `success = true`; every Remote Client failure — from the
fetch or from the reveal — propagates unmodified and is never rewritten as
a deck-finished result. -/
theorem C5_start_session (env : Env) :
    (∀ e, gui_current_card env = Except.error e →
      start_learning env = (Except.error e, [currentCardReq]))
    ∧ (∀ fields mn tpl e, gui_current_card env = Except.ok (JsonV.obj fields) →
        pyIndexStr fields "modelName" = Except.ok mn →
        pyIndexStr fields "template" = Except.ok tpl →
        gui_show_answer env = Except.error e →
        start_learning env = (Except.error e, [currentCardReq, showAnswerReq]))
    ∧ (∀ fields mn tpl r q dn a,
        gui_current_card env = Except.ok (JsonV.obj fields) →
        pyIndexStr fields "modelName" = Except.ok mn →
        pyIndexStr fields "template" = Except.ok tpl →
        gui_show_answer env = Except.ok r →
        pyGetStr fields "question" "" = Except.ok q →
        pyGetStr fields "deckName" "" = Except.ok dn →
        pyGetStr fields "answer" "" = Except.ok a →
        start_learning env =
          (Except.ok [("success", JsonV.bool true),
            ("model_name", JsonV.str mn),
            ("template", JsonV.str tpl),
            ("deck_name", JsonV.str dn),
            ("question", JsonV.str (_format_question mn tpl (_strip_html q))),
            ("answer", JsonV.str (_strip_html a))],
            [currentCardReq, showAnswerReq])) := by
  refine ⟨?_, ?_, ?_⟩
  · intro e he
    unfold start_learning _get_current_card_info
    rw [he]
  · intro fields mn tpl e hcc hmn htpl hsa
    unfold start_learning _get_current_card_info
    simp only [hcc, hmn, htpl, hsa]
  · intro fields mn tpl r q dn a hcc hmn htpl hsa hq hdn ha
    unfold start_learning _get_current_card_info
    simp only [hcc, hmn, htpl, hsa, hq, hdn, ha]

/-- C5 witness: a fully successful session start on a concrete
environment, and unmodified propagation of a transport failure. -/
theorem C5_witness :
    start_learning envGood
      = (Except.ok [("success", JsonV.bool true),
          ("model_name", JsonV.str "Vocabulary"),
          ("template", JsonV.str "card2"),
          ("deck_name", JsonV.str "D"),
          ("question", JsonV.str "apple 的英文是什么？"),
          ("answer", JsonV.str "ans")],
          [currentCardReq, showAnswerReq])
    ∧ start_learning envAllDown
      = (Except.error (PyErr.ankiConnect AnkiErrKind.serviceUnavailable),
          [currentCardReq]) :=
  ⟨(C5_start_session envGood).2.2
      [("cardId", JsonV.num 17), ("modelName", JsonV.str "Vocabulary"),
        ("template", JsonV.str "card2"), ("deckName", JsonV.str "D"),
        ("question", JsonV.str "<p>apple</p>"),
        ("answer", JsonV.str "<b>ans</b>")]
      "Vocabulary" "card2" JsonV.null "<p>apple</p>" "D" "<b>ans</b>"
      rfl rfl rfl rfl rfl rfl rfl,
    (C5_start_session envAllDown).1
      (PyErr.ankiConnect AnkiErrKind.serviceUnavailable) rfl⟩

/-- C3: every integer ease outside `{1, 2, 3, 4}` makes
`answer_and_get_next_card` fail with the validation error and issue zero
remote requests; every ease inside the set passes validation and the first
request issued submits that ease to the external system. -/
theorem C3_ease_validation (env : Env) (ease : Int) :
    (easeValid ease = true ↔ (ease = 1 ∨ ease = 2 ∨ ease = 3 ∨ ease = 4))
    ∧ (easeValid ease = false →
        answer_and_get_next_card env ease
          = (Except.error (PyErr.valueError "ease must be 1-4"), []))
    ∧ (easeValid ease = true →
        ∃ rest, (answer_and_get_next_card env ease).2
          = answerCardReq ease :: rest) := by
  refine ⟨?_, ?_, ?_⟩
  · simp [easeValid, or_assoc]
  · intro hv
    simp [answer_and_get_next_card, hv]
  · intro hv
    unfold answer_and_get_next_card
    rw [if_pos hv]
    cases hac : gui_answer_card env ease with
    | error e => exact ⟨[], rfl⟩
    | ok r =>
      rcases hgc : _get_current_card_info env with ⟨res, tr⟩
      cases res with
      | ok view => exact ⟨tr, rfl⟩
      | error e =>
        cases e with
        | ankiConnect k => exact ⟨tr, rfl⟩
        | valueError m => exact ⟨tr, rfl⟩
        | keyError m => exact ⟨tr, rfl⟩
        | typeError m => exact ⟨tr, rfl⟩
        | attributeError m => exact ⟨tr, rfl⟩

/-- C3 witness: `ease = 5` is rejected with zero requests issued;
`ease = 3` passes validation and the answer request leads the trace. -/
theorem C3_witness :
    answer_and_get_next_card envAllDown 5
      = (Except.error (PyErr.valueError "ease must be 1-4"), [])
    ∧ ∃ rest, (answer_and_get_next_card envAllDown 3).2
        = answerCardReq 3 :: rest :=
  ⟨(C3_ease_validation envAllDown 5).2.1 rfl,
    (C3_ease_validation envAllDown 3).2.2 rfl⟩

/-- C1 counterexample: with a valid ease, a transport-level failure
(`serviceUnavailable`, the "Anki-Connect is not reachable" raise site —
not the external "no card available" application error) raised while
re-fetching the current card is also rewritten into the benign
deck-finished result instead of propagating. -/
theorem C1_counterexample :
    gui_current_card envNoMoreCards
      = Except.error (PyErr.ankiConnect AnkiErrKind.serviceUnavailable)
    ∧ answer_and_get_next_card envNoMoreCards 3
      = (Except.ok deckFinishedView, [answerCardReq 3, currentCardReq]) :=
  ⟨rfl, rfl⟩

/-- C1 (amended): with a valid ease and a successful answer submission,
*every* failure of the single class `AnkiConnectError` raised during the
re-fetch — service-unavailable, protocol and application errors alike —
is reinterpreted as the benign deck-finished result; only failures of
other exception classes propagate unmodified. -/
theorem C1_refetch_error_handling (env : Env) (ease : Int) (r : JsonV)
    (hease : easeValid ease = true)
    (hans : gui_answer_card env ease = Except.ok r) :
    (∀ k tr,
      _get_current_card_info env = (Except.error (PyErr.ankiConnect k), tr) →
      answer_and_get_next_card env ease
        = (Except.ok deckFinishedView, answerCardReq ease :: tr))
    ∧ (∀ e tr, _get_current_card_info env = (Except.error e, tr) →
        (∀ k, e ≠ PyErr.ankiConnect k) →
        answer_and_get_next_card env ease
          = (Except.error e, answerCardReq ease :: tr)) := by
  constructor
  · intro k tr hgc
    unfold answer_and_get_next_card
    rw [if_pos hease, hans, hgc]
  · intro e tr hgc hne
    unfold answer_and_get_next_card
    rw [if_pos hease, hans, hgc]
    cases e with
    | ankiConnect k => exact absurd rfl (hne k)
    | valueError m => rfl
    | keyError m => rfl
    | typeError m => rfl
    | attributeError m => rfl

/-- C1 witness: the amended behaviour at a concrete environment whose
re-fetch fails with the transport-level `AnkiConnectError`. -/
theorem C1_witness :
    answer_and_get_next_card envNoMoreCards 3
      = (Except.ok deckFinishedView, [answerCardReq 3, currentCardReq]) :=
  (C1_refetch_error_handling envNoMoreCards 3 JsonV.null rfl rfl).1
    AnkiErrKind.serviceUnavailable [currentCardReq] rfl

/-- C2 counterexample: a card mapping that merely lacks `modelName` (all
other fields present) makes `_get_current_card_info` fail with a
`KeyError` instead of substituting the empty string. -/
theorem C2_counterexample :
    _get_current_card_info envMissingModel
      = (Except.error (PyErr.keyError "modelName"), [currentCardReq]) := rfl

/-- C2 (amended): only `deckName`, `question` and `answer` are read
defensively (missing key → empty string, and the operation succeeds);
`modelName` and `template` are read by subscript, so their absence makes
the operation fail with a `KeyError` before the answer is revealed. -/
theorem C2_defensive_fields (env : Env) (fields : List (String × JsonV)) :
    (∀ mn tpl r, gui_current_card env = Except.ok (JsonV.obj fields) →
      pyIndexStr fields "modelName" = Except.ok mn →
      pyIndexStr fields "template" = Except.ok tpl →
      gui_show_answer env = Except.ok r →
      pyLookup fields "question" = none →
      pyLookup fields "deckName" = none →
      pyLookup fields "answer" = none →
      _get_current_card_info env
        = (Except.ok [("success", JsonV.bool true),
            ("model_name", JsonV.str mn),
            ("template", JsonV.str tpl),
            ("deck_name", JsonV.str ""),
            ("question", JsonV.str (_format_question mn tpl (_strip_html ""))),
            ("answer", JsonV.str (_strip_html ""))],
            [currentCardReq, showAnswerReq]))
    ∧ (gui_current_card env = Except.ok (JsonV.obj fields) →
        pyLookup fields "modelName" = none →
        _get_current_card_info env
          = (Except.error (PyErr.keyError "modelName"), [currentCardReq]))
    ∧ (∀ mn, gui_current_card env = Except.ok (JsonV.obj fields) →
        pyIndexStr fields "modelName" = Except.ok mn →
        pyLookup fields "template" = none →
        _get_current_card_info env
          = (Except.error (PyErr.keyError "template"), [currentCardReq])) := by
  refine ⟨?_, ?_, ?_⟩
  · intro mn tpl r hcc hmn htpl hsa hq hdn ha
    have hq2 : pyGetStr fields "question" "" = Except.ok "" := by
      simp [pyGetStr, hq]
    have hdn2 : pyGetStr fields "deckName" "" = Except.ok "" := by
      simp [pyGetStr, hdn]
    have ha2 : pyGetStr fields "answer" "" = Except.ok "" := by
      simp [pyGetStr, ha]
    unfold _get_current_card_info
    simp only [hcc, hmn, htpl, hsa, hq2, hdn2, ha2]
  · intro hcc hmn
    have hmn2 : pyIndexStr fields "modelName"
        = Except.error (PyErr.keyError "modelName") := by
      simp [pyIndexStr, hmn]
    unfold _get_current_card_info
    simp only [hcc, hmn2]
  · intro mn hcc hmn htpl
    have htpl2 : pyIndexStr fields "template"
        = Except.error (PyErr.keyError "template") := by
      simp [pyIndexStr, htpl]
    unfold _get_current_card_info
    simp only [hcc, hmn, htpl2]

/-- C2 witness: a card carrying only `modelName` and `template` still
succeeds, with empty strings substituted for the three defensive fields. -/
theorem C2_witness :
    _get_current_card_info envBareCard
      = (Except.ok [("success", JsonV.bool true),
          ("model_name", JsonV.str "Vocabulary"),
          ("template", JsonV.str "card1"),
          ("deck_name", JsonV.str ""),
          ("question", JsonV.str " 是什么意思？"),
          ("answer", JsonV.str "")],
          [currentCardReq, showAnswerReq]) :=
  (C2_defensive_fields envBareCard
      [("modelName", JsonV.str "Vocabulary"), ("template", JsonV.str "card1")]).1
    "Vocabulary" "card1" JsonV.null rfl rfl rfl rfl rfl rfl rfl

/-- C6 counterexample: the deck-finished record returned by
`answer_and_get_next_card` does not contain the key `template`, so its key
set is not the claimed
`{success, model_name, template, deck_name, question, answer} ∪ {deck_finished}`. -/
theorem C6_counterexample :
    (answer_and_get_next_card envNoMoreCards 3).1.map (fun v => v.map Prod.fst)
      = Except.ok ["success", "deck_finished", "model_name", "deck_name",
          "question", "answer"]
    ∧ "template" ∉ ["success", "deck_finished", "model_name", "deck_name",
          "question", "answer"] :=
  ⟨rfl, by decide⟩

/-- C6 (amended): every successful `SessionCardView` from either tool
operation is a flat record whose keys are exactly
`success, model_name, template, deck_name, question, answer` (in order),
except the deck-finished record, whose keys are exactly
`success, deck_finished, model_name, deck_name, question, answer` —
without `template`. -/
theorem C6_view_keys (env : Env) (ease : Int) :
    (∀ view tr, start_learning env = (Except.ok view, tr) →
      view.map Prod.fst
        = ["success", "model_name", "template", "deck_name", "question",
            "answer"])
    ∧ (∀ view tr, answer_and_get_next_card env ease = (Except.ok view, tr) →
        view.map Prod.fst
          = ["success", "model_name", "template", "deck_name", "question",
              "answer"]
        ∨ view.map Prod.fst
          = ["success", "deck_finished", "model_name", "deck_name",
              "question", "answer"]) := by
  constructor
  · intro view tr h
    exact card_info_keys env view tr h
  · intro view tr h
    unfold answer_and_get_next_card at h
    by_cases hv : easeValid ease = true
    · rw [if_pos hv] at h
      cases hac : gui_answer_card env ease with
      | error e => rw [hac] at h; simp at h
      | ok r =>
        rw [hac] at h
        rcases hgc : _get_current_card_info env with ⟨res, tr2⟩
        rw [hgc] at h
        cases res with
        | ok view2 =>
          simp only [Prod.mk.injEq, Except.ok.injEq] at h
          left
          rw [← h.1]
          exact card_info_keys env view2 tr2 hgc
        | error e =>
          cases e with
          | ankiConnect k =>
            simp only [Prod.mk.injEq, Except.ok.injEq] at h
            right
            rw [← h.1]
            rfl
          | valueError m => simp at h
          | keyError m => simp at h
          | typeError m => simp at h
          | attributeError m => simp at h
    · rw [if_neg hv] at h
      simp at h

/-- C6 witness: the key lists of the two concrete views produced by the
tools on concrete environments. -/
theorem C6_witness :
    deckFinishedView.map Prod.fst
      = ["success", "model_name", "template", "deck_name", "question",
          "answer"]
    ∨ deckFinishedView.map Prod.fst
      = ["success", "deck_finished", "model_name", "deck_name", "question",
          "answer"] :=
  (C6_view_keys envNoMoreCards 3).2 deckFinishedView
    [answerCardReq 3, currentCardReq] rfl

end Anki
